import Mathlib

/-!
Shallow embedding of `src/shader.rs` (simonrw/slideshow-rust).

The GPU driver is modelled as a pure oracle (`Driver`) that decides, per
shader source text, the compile-status flag and diagnostic log, and per
list of attached sources, the link-status flag and log.  The mutable GL
context is an explicit state (`GLState`) threaded through every call:
allocated shader objects, allocated program objects, the fresh-handle
counter, and the current `UseProgram` binding.  Diagnostic logs are
modelled as already-decoded text (the Rust code reads a 511-byte buffer
and decodes it as UTF-8; the decode-failure path is not the subject of
any theorem here).  Rust panics (`expect`/`unwrap`) are modelled by the
`Outcome.panicked` constructor, `Result::Err` by `Outcome.err`.
-/

/-- GL boolean sentinels: `gl::TRUE as GLint` and `gl::FALSE as GLint`. -/
def glTRUE : Int := 1

def glFALSE : Int := 0

/-- `gl::VERTEX_SHADER`. -/
def GL_VERTEX_SHADER : Nat := 0x8B31

/-- `gl::FRAGMENT_SHADER`. -/
def GL_FRAGMENT_SHADER : Nat := 0x8B30

/-- Outcome of running a piece of Rust code: normal return, returned
`Err` value (message text of the boxed error), or process-terminating
panic with its message. -/
inductive Outcome (α : Type) where
  | ok : α → Outcome α
  | err : String → Outcome α
  | panicked : String → Outcome α
deriving DecidableEq, Repr

/-- The driver oracle: status flags and diagnostic logs as pure
functions of the submitted source text.  `linkStatus`/`linkLog` are
functions of the sources of the shaders attached to the program being
linked. -/
structure Driver where
  compileStatus : String → Int
  compileLog : String → String
  linkStatus : List String → Int
  linkLog : List String → String

/-- A GL shader object: handle, type enum, and currently set source. -/
structure ShaderObj where
  id : Nat
  shaderType : Nat
  source : String
deriving DecidableEq, Repr

/-- A GL program object: handle and attached shader handles in attach
order. -/
structure ProgramObj where
  id : Nat
  attached : List Nat
deriving DecidableEq, Repr

/-- The GL context state: fresh-handle counter, live shader objects,
live program objects, and the current `UseProgram` binding (0 = none). -/
structure GLState where
  nextId : Nat
  shaders : List ShaderObj
  programs : List ProgramObj
  currentProgram : Nat
deriving DecidableEq, Repr

/-- `gl::CreateShader`: allocate a fresh shader object with empty
source, return its handle. -/
def glCreateShader (shaderType : Nat) (s : GLState) : Nat × GLState :=
  (s.nextId,
   { s with nextId := s.nextId + 1,
            shaders := s.shaders ++ [⟨s.nextId, shaderType, ""⟩] })

/-- `gl::ShaderSource`: set the source text of a shader object. -/
def glShaderSource (shader : Nat) (src : String) (s : GLState) : GLState :=
  { s with shaders :=
      s.shaders.map fun o => if o.id == shader then { o with source := src } else o }

/-- `gl::CompileShader`: compilation itself has no observable state
effect in the model; the resulting status flag is queried from the
driver oracle by `glGetShaderCompileStatus`. -/
def glCompileShader (_shader : Nat) (s : GLState) : GLState := s

/-- `gl::GetShaderiv(_, COMPILE_STATUS, _)`: the driver reports the
compile status of the shader object's source. -/
def glGetShaderCompileStatus (d : Driver) (shader : Nat) (s : GLState) : Int :=
  match s.shaders.find? (fun o => o.id == shader) with
  | some o => d.compileStatus o.source
  | none => glFALSE

/-- `gl::GetShaderInfoLog`: the driver's diagnostic text for the shader
object's source (modelled post-UTF-8-decode). -/
def glGetShaderInfoLog (d : Driver) (shader : Nat) (s : GLState) : String :=
  match s.shaders.find? (fun o => o.id == shader) with
  | some o => d.compileLog o.source
  | none => ""

/-- `gl::CreateProgram`: allocate a fresh program object with no
attached shaders, return its handle. -/
def glCreateProgram (s : GLState) : Nat × GLState :=
  (s.nextId,
   { s with nextId := s.nextId + 1,
            programs := s.programs ++ [⟨s.nextId, []⟩] })

/-- `gl::AttachShader`: append a shader handle to a program's attach
list. -/
def glAttachShader (program shader : Nat) (s : GLState) : GLState :=
  { s with programs :=
      s.programs.map fun p =>
        if p.id == program then { p with attached := p.attached ++ [shader] } else p }

/-- `gl::LinkProgram`: linking has no observable state effect in the
model; the status flag is queried from the driver oracle. -/
def glLinkProgram (_program : Nat) (s : GLState) : GLState := s

/-- The source texts of the shaders attached to a program, in attach
order. -/
def attachedSources (s : GLState) (program : Nat) : List String :=
  match s.programs.find? (fun p => p.id == program) with
  | some p =>
      p.attached.filterMap fun h =>
        (s.shaders.find? (fun o => o.id == h)).map ShaderObj.source
  | none => []

/-- `gl::GetProgramiv(_, LINK_STATUS, _)`: the driver reports the link
status as a function of the attached sources. -/
def glGetProgramLinkStatus (d : Driver) (program : Nat) (s : GLState) : Int :=
  d.linkStatus (attachedSources s program)

/-- `gl::GetProgramInfoLog`: the driver's link diagnostic text. -/
def glGetProgramInfoLog (d : Driver) (program : Nat) (s : GLState) : String :=
  d.linkLog (attachedSources s program)

/-- `gl::DeleteShader`: remove a shader object from the live set. -/
def glDeleteShader (shader : Nat) (s : GLState) : GLState :=
  { s with shaders := s.shaders.filter fun o => o.id != shader }

/-- `gl::UseProgram`: set the current program binding. -/
def glUseProgram (id : Nat) (s : GLState) : GLState :=
  { s with currentProgram := id }

/-- `CString::new(src.as_bytes())`: fails exactly when the text has an
interior NUL byte; the code unwraps it with
`expect("Could not create vertex shader c string")`. -/
def cStringNew (src : String) : Outcome String :=
  if src.data.contains (Char.ofNat 0) then
    Outcome.panicked "Could not create vertex shader c string"
  else
    Outcome.ok src

/-- `create_shader` from `shader.rs` lines 63-88: create a shader
object, set its source, compile, query the status flag; on any status
other than TRUE read the info log and return an `Err` whose message is
hardcoded to the `VERTEX` tag (as in the source), otherwise return the
shader handle. -/
def create_shader (d : Driver) (src : String) (shader_type : Nat) (s : GLState) :
    Outcome Nat × GLState :=
  let r := glCreateShader shader_type s
  let vertex_shader := r.1
  match cStringNew src with
  | Outcome.panicked m => (Outcome.panicked m, r.2)
  | Outcome.err m => (Outcome.err m, r.2)
  | Outcome.ok c_str_vert =>
    let s1 := glShaderSource vertex_shader c_str_vert r.2
    let s2 := glCompileShader vertex_shader s1
    let success := glGetShaderCompileStatus d vertex_shader s2
    if success ≠ glTRUE then
      (Outcome.err ("ERROR::SHADER::VERTEX::COMPILATION_FAILED\n"
          ++ glGetShaderInfoLog d vertex_shader s2), s2)
    else
      (Outcome.ok vertex_shader, s2)

/-- `create_shader_program` from `shader.rs` lines 90-125: compile the
vertex stage, then the fragment stage (each early-returning its error
via `?`), create a program, attach both stages, link, query the link
status; on any status other than TRUE return an `Err` tagged `PROGRAM`
(without deleting the stages), otherwise delete both stages and return
the program handle. -/
def create_shader_program (d : Driver) (vertex_src fragment_src : String) (s : GLState) :
    Outcome Nat × GLState :=
  match create_shader d vertex_src GL_VERTEX_SHADER s with
  | (Outcome.err e, s1) => (Outcome.err e, s1)
  | (Outcome.panicked m, s1) => (Outcome.panicked m, s1)
  | (Outcome.ok vertex_shader, s1) =>
    match create_shader d fragment_src GL_FRAGMENT_SHADER s1 with
    | (Outcome.err e, s2) => (Outcome.err e, s2)
    | (Outcome.panicked m, s2) => (Outcome.panicked m, s2)
    | (Outcome.ok fragment_shader, s2) =>
      let r := glCreateProgram s2
      let shader_program := r.1
      let s3 := glAttachShader shader_program vertex_shader r.2
      let s4 := glAttachShader shader_program fragment_shader s3
      let s5 := glLinkProgram shader_program s4
      let success := glGetProgramLinkStatus d shader_program s5
      if success ≠ glTRUE then
        (Outcome.err ("ERROR::SHADER::PROGRAM::COMPILATION_FAILED\n"
            ++ glGetProgramInfoLog d shader_program s5), s5)
      else
        let s6 := glDeleteShader vertex_shader s5
        let s7 := glDeleteShader fragment_shader s6
        (Outcome.ok shader_program, s7)

/-- `update_shader_program` from `shader.rs` lines 127-161: same
compile steps, but attach the freshly compiled stages to the given
already-existing program handle and relink it in place; returns unit on
success. -/
def update_shader_program (d : Driver) (shader_program : Nat)
    (vertex_src fragment_src : String) (s : GLState) :
    Outcome Unit × GLState :=
  match create_shader d vertex_src GL_VERTEX_SHADER s with
  | (Outcome.err e, s1) => (Outcome.err e, s1)
  | (Outcome.panicked m, s1) => (Outcome.panicked m, s1)
  | (Outcome.ok vertex_shader, s1) =>
    match create_shader d fragment_src GL_FRAGMENT_SHADER s1 with
    | (Outcome.err e, s2) => (Outcome.err e, s2)
    | (Outcome.panicked m, s2) => (Outcome.panicked m, s2)
    | (Outcome.ok fragment_shader, s2) =>
      let s3 := glAttachShader shader_program vertex_shader s2
      let s4 := glAttachShader shader_program fragment_shader s3
      let s5 := glLinkProgram shader_program s4
      let success := glGetProgramLinkStatus d shader_program s5
      if success ≠ glTRUE then
        (Outcome.err ("ERROR::SHADER::PROGRAM::COMPILATION_FAILED\n"
            ++ glGetProgramInfoLog d shader_program s5), s5)
      else
        let s6 := glDeleteShader vertex_shader s5
        let s7 := glDeleteShader fragment_shader s6
        (Outcome.ok (), s7)

/-- Result of asking the filesystem for a file: readable contents,
unopenable, or a read error after opening. -/
inductive FileResult where
  | contents : String → FileResult
  | openError : FileResult
  | readError : FileResult
deriving DecidableEq, Repr

/-- The filesystem oracle. -/
structure FileSystem where
  files : String → FileResult

/-- `read_from_file` from `shader.rs` lines 56-61: return the file's
full contents, or panic with `expect("Could not open file")` /
`expect("Could not read file")`. -/
def read_from_file (fs : FileSystem) (filename : String) : Outcome String :=
  match fs.files filename with
  | FileResult.contents s => Outcome.ok s
  | FileResult.openError => Outcome.panicked "Could not open file"
  | FileResult.readError => Outcome.panicked "Could not read file"

/-- The `ShaderProgram` struct: interior-mutable handle cell plus the
two recorded source paths. -/
structure ShaderProgram where
  id : Nat
  vertex_filename : String
  fragment_filename : String
deriving DecidableEq, Repr

/-- `ShaderProgram::new`: read both sources (panicking reads), build a
new program (propagating its `Err` via `?`), and on success construct
the struct with the new handle and the two paths. -/
def ShaderProgram.new (d : Driver) (fs : FileSystem)
    (vertex_filename fragment_filename : String) (s : GLState) :
    Outcome ShaderProgram × GLState :=
  match read_from_file fs vertex_filename with
  | Outcome.err e => (Outcome.err e, s)
  | Outcome.panicked m => (Outcome.panicked m, s)
  | Outcome.ok vertex_src =>
    match read_from_file fs fragment_filename with
    | Outcome.err e => (Outcome.err e, s)
    | Outcome.panicked m => (Outcome.panicked m, s)
    | Outcome.ok fragment_src =>
      match create_shader_program d vertex_src fragment_src s with
      | (Outcome.err e, s1) => (Outcome.err e, s1)
      | (Outcome.panicked m, s1) => (Outcome.panicked m, s1)
      | (Outcome.ok id, s1) =>
        (Outcome.ok ⟨id, vertex_filename, fragment_filename⟩, s1)

/-- `ShaderProgram::activate`: `gl::UseProgram(self.id.get())`; the
receiver is `&self` and no field is written, so the object is returned
unchanged. -/
def ShaderProgram.activate (p : ShaderProgram) (s : GLState) :
    ShaderProgram × GLState :=
  (p, glUseProgram p.id s)

/-- `ShaderProgram::deactivate`: `gl::UseProgram(0)`; no field is
written. -/
def ShaderProgram.deactivate (p : ShaderProgram) (s : GLState) :
    ShaderProgram × GLState :=
  (p, glUseProgram 0 s)

/-- `ShaderProgram::reload`: re-read both sources from the recorded
paths (panicking reads), rebuild via `create_shader_program`, unwrap
the result with `expect("Could not create shader program")` (panicking
on `Err` with the expect message followed by the error), and on success
store the new handle into the `id` cell.  The middle component of the
result is the post-state of the (interior-mutable) object. -/
def ShaderProgram.reload (d : Driver) (fs : FileSystem) (p : ShaderProgram) (s : GLState) :
    Outcome Unit × ShaderProgram × GLState :=
  match read_from_file fs p.vertex_filename with
  | Outcome.err e => (Outcome.err e, p, s)
  | Outcome.panicked m => (Outcome.panicked m, p, s)
  | Outcome.ok vertex_src =>
    match read_from_file fs p.fragment_filename with
    | Outcome.err e => (Outcome.err e, p, s)
    | Outcome.panicked m => (Outcome.panicked m, p, s)
    | Outcome.ok fragment_src =>
      match create_shader_program d vertex_src fragment_src s with
      | (Outcome.err e, s1) =>
        (Outcome.panicked ("Could not create shader program: " ++ e), p, s1)
      | (Outcome.panicked m, s1) => (Outcome.panicked m, p, s1)
      | (Outcome.ok id, s1) => (Outcome.ok (), { p with id := id }, s1)

/-- Modelled from the spec: the Rebuild-into-existing-program reload
the spec describes — `update_shader_program` on the already-existing
handle, relinking the same program object in place, the stored handle
staying that same program handle.  Used only to compare against the
source's `ShaderProgram.reload`. -/
def reloadViaUpdate (d : Driver) (fs : FileSystem) (p : ShaderProgram) (s : GLState) :
    Outcome Unit × ShaderProgram × GLState :=
  match read_from_file fs p.vertex_filename with
  | Outcome.err e => (Outcome.err e, p, s)
  | Outcome.panicked m => (Outcome.panicked m, p, s)
  | Outcome.ok vertex_src =>
    match read_from_file fs p.fragment_filename with
    | Outcome.err e => (Outcome.err e, p, s)
    | Outcome.panicked m => (Outcome.panicked m, p, s)
    | Outcome.ok fragment_src =>
      match update_shader_program d p.id vertex_src fragment_src s with
      | (Outcome.err e, s1) =>
        (Outcome.panicked ("Could not create shader program: " ++ e), p, s1)
      | (Outcome.panicked m, s1) => (Outcome.panicked m, p, s1)
      | (Outcome.ok _, s1) => (Outcome.ok (), p, s1)

/-- Well-formedness of a GL state: every live handle is below the
fresh-handle counter. -/
def GLState.wf (s : GLState) : Prop :=
  (∀ o ∈ s.shaders, o.id < s.nextId) ∧ ∀ q ∈ s.programs, q.id < s.nextId

instance (s : GLState) : Decidable s.wf := by
  unfold GLState.wf; infer_instance

/-- A fresh GL context (object names start at 1; 0 is the null program
binding). -/
def glInit : GLState := ⟨1, [], [], 0⟩

/-- A driver for which every source compiles and every link succeeds. -/
def driverAllOk : Driver := ⟨fun _ => 1, fun _ => "", fun _ => 1, fun _ => ""⟩

/-- A driver that compiles only the source text "vertex-source", reports a
fixed diagnostic for every other source, and always links successfully. -/
def driverFragFail : Driver :=
  ⟨fun src => if src = "vertex-source" then 1 else 0,
   fun _ => "fragment-stage-diagnostic", fun _ => 1, fun _ => ""⟩

/-- A driver that compiles every source but always fails linking. -/
def driverLinkFail : Driver :=
  ⟨fun _ => 1, fun _ => "", fun _ => 0, fun _ => "link-diagnostic"⟩

/-- A filesystem holding the two demo shader source files. -/
def fsDemo : FileSystem :=
  ⟨fun n => if n = "shader.vert" then FileResult.contents "vertex-source"
    else if n = "shader.frag" then FileResult.contents "fragment-source"
    else FileResult.openError⟩

/-- The ShaderProgram produced by `ShaderProgram.new driverAllOk fsDemo
"shader.vert" "shader.frag" glInit`. -/
def progDemo : ShaderProgram := ⟨3, "shader.vert", "shader.frag"⟩

/-- The GL state right after that construction. -/
def stateDemo : GLState := ⟨4, [], [⟨3, [1, 2]⟩], 0⟩

lemma find_shaders_none {l : List ShaderObj} {n : Nat}
    (h : ∀ o ∈ l, o.id ≠ n) : l.find? (fun o => o.id == n) = none :=
  List.find?_eq_none.mpr fun o ho => by simp [h o ho]

lemma find_programs_none {l : List ProgramObj} {n : Nat}
    (h : ∀ q ∈ l, q.id ≠ n) : l.find? (fun q => q.id == n) = none :=
  List.find?_eq_none.mpr fun q hq => by simp [h q hq]

/-- Characterization of one `create_shader` call on a well-formed state
with NUL-free source: it allocates exactly the one new shader object and
reports the driver's compile status of that source. -/
lemma create_shader_eq (d : Driver) (src : String) (ty : Nat) (s : GLState)
    (hwf : ∀ o ∈ s.shaders, o.id < s.nextId)
    (hnul : src.data.contains (Char.ofNat 0) = false) :
    create_shader d src ty s =
      ((if d.compileStatus src ≠ glTRUE then
          Outcome.err ("ERROR::SHADER::VERTEX::COMPILATION_FAILED\n" ++ d.compileLog src)
        else Outcome.ok s.nextId),
       { s with nextId := s.nextId + 1,
                shaders := s.shaders ++ [⟨s.nextId, ty, src⟩] }) := by
  have hne : ∀ o ∈ s.shaders, o.id ≠ s.nextId := fun o ho => Nat.ne_of_lt (hwf o ho)
  have hmap : (s.shaders ++ [(⟨s.nextId, ty, ""⟩ : ShaderObj)]).map
      (fun o => if o.id == s.nextId then { o with source := src } else o)
      = s.shaders ++ [⟨s.nextId, ty, src⟩] := by
    rw [List.map_append]
    congr 1
    · have h2 : ∀ o ∈ s.shaders,
          (if o.id == s.nextId then { o with source := src } else o) = o := by
        intro o ho
        simp [hne o ho]
      rw [List.map_congr_left h2]
      exact List.map_id' _
    · simp
  have hfind : (s.shaders ++ [(⟨s.nextId, ty, src⟩ : ShaderObj)]).find?
      (fun o => o.id == s.nextId) = some ⟨s.nextId, ty, src⟩ := by
    rw [List.find?_append, find_shaders_none hne]
    simp [List.find?]
  unfold create_shader glCreateShader cStringNew glShaderSource glCompileShader
    glGetShaderCompileStatus glGetShaderInfoLog
  simp only [hnul, Bool.false_eq_true, if_false]
  simp only [hmap, hfind]
  split <;> rfl

lemma map_update_fresh_program {l : List ProgramObj} {n : Nat}
    (g : ProgramObj → ProgramObj) (x : ProgramObj)
    (h : ∀ q ∈ l, q.id ≠ n) (hx : x.id = n) :
    (l ++ [x]).map (fun q => if q.id == n then g q else q) = l ++ [g x] := by
  rw [List.map_append]
  congr 1
  · have h2 : ∀ q ∈ l, (if q.id == n then g q else q) = q := fun q hq => by simp [h q hq]
    rw [List.map_congr_left h2]
    exact List.map_id' _
  · simp [hx]

lemma find_fresh_program {l : List ProgramObj} {n : Nat} (x : ProgramObj)
    (h : ∀ q ∈ l, q.id ≠ n) (hx : x.id = n) :
    (l ++ [x]).find? (fun q => q.id == n) = some x := by
  rw [List.find?_append, find_programs_none h]
  simp [List.find?, hx]

/-- A failed vertex compile returns that error immediately: the fragment
stage is never compiled and no program object is created. -/
lemma create_shader_program_vertex_fail (d : Driver) (v f : String) (s : GLState)
    (hwf : s.wf)
    (hnv : v.data.contains (Char.ofNat 0) = false)
    (hcv : d.compileStatus v ≠ glTRUE) :
    create_shader_program d v f s =
      (Outcome.err ("ERROR::SHADER::VERTEX::COMPILATION_FAILED\n" ++ d.compileLog v),
       { s with nextId := s.nextId + 1,
                shaders := s.shaders ++ [⟨s.nextId, GL_VERTEX_SHADER, v⟩] }) := by
  unfold create_shader_program
  rw [create_shader_eq d v GL_VERTEX_SHADER s hwf.1 hnv, if_pos hcv]

lemma wf_shaders_step (s : GLState) (hws : ∀ o ∈ s.shaders, o.id < s.nextId)
    (ty : Nat) (src : String) :
    ∀ o ∈ s.shaders ++ [(⟨s.nextId, ty, src⟩ : ShaderObj)], o.id < s.nextId + 1 := by
  intro o ho
  rcases List.mem_append.mp ho with h | h
  · exact Nat.lt_succ_of_lt (hws o h)
  · simp at h
    subst h
    exact Nat.lt_succ_self _

/-- A failed fragment compile (after a successful vertex compile) returns
that error immediately: linking is never attempted and no program object
is created.  The error text carries the `VERTEX` tag hardcoded by
`create_shader`. -/
lemma create_shader_program_fragment_fail (d : Driver) (v f : String) (s : GLState)
    (hwf : s.wf)
    (hnv : v.data.contains (Char.ofNat 0) = false)
    (hnf : f.data.contains (Char.ofNat 0) = false)
    (hcv : d.compileStatus v = glTRUE)
    (hcf : d.compileStatus f ≠ glTRUE) :
    create_shader_program d v f s =
      (Outcome.err ("ERROR::SHADER::VERTEX::COMPILATION_FAILED\n" ++ d.compileLog f),
       { s with nextId := s.nextId + 2,
                shaders := s.shaders ++ [⟨s.nextId, GL_VERTEX_SHADER, v⟩,
                                         ⟨s.nextId + 1, GL_FRAGMENT_SHADER, f⟩] }) := by
  unfold create_shader_program
  rw [create_shader_eq d v GL_VERTEX_SHADER s hwf.1 hnv, if_neg (by simp [hcv])]
  dsimp only
  rw [create_shader_eq d f GL_FRAGMENT_SHADER _ (wf_shaders_step s hwf.1 GL_VERTEX_SHADER v) hnf]
  rw [if_pos hcf]
  simp

/-- Characterization of the link stage of `create_shader_program` on a
well-formed state once both stages compiled: the program object is
attached exactly the two new stages, the driver decides the link status
of their sources, and the stages are deleted only on success. -/
lemma create_shader_program_link_stage (d : Driver) (v f : String) (s : GLState)
    (hwf : s.wf)
    (hnv : v.data.contains (Char.ofNat 0) = false)
    (hnf : f.data.contains (Char.ofNat 0) = false)
    (hcv : d.compileStatus v = glTRUE)
    (hcf : d.compileStatus f = glTRUE) :
    create_shader_program d v f s =
      if d.linkStatus [v, f] ≠ glTRUE then
        (Outcome.err ("ERROR::SHADER::PROGRAM::COMPILATION_FAILED\n" ++ d.linkLog [v, f]),
         { nextId := s.nextId + 3,
           shaders := s.shaders ++ [⟨s.nextId, GL_VERTEX_SHADER, v⟩,
                                    ⟨s.nextId + 1, GL_FRAGMENT_SHADER, f⟩],
           programs := s.programs ++ [⟨s.nextId + 2, [s.nextId, s.nextId + 1]⟩],
           currentProgram := s.currentProgram })
      else
        (Outcome.ok (s.nextId + 2),
         { nextId := s.nextId + 3,
           shaders := s.shaders,
           programs := s.programs ++ [⟨s.nextId + 2, [s.nextId, s.nextId + 1]⟩],
           currentProgram := s.currentProgram }) := by
  obtain ⟨hws, hwp⟩ := hwf
  have hne : ∀ o ∈ s.shaders, o.id ≠ s.nextId := fun o ho => Nat.ne_of_lt (hws o ho)
  have hne1 : ∀ o ∈ s.shaders, o.id ≠ s.nextId + 1 :=
    fun o ho => Nat.ne_of_lt (Nat.lt_succ_of_lt (hws o ho))
  have hpne : ∀ q ∈ s.programs, q.id ≠ s.nextId + 1 + 1 :=
    fun q hq => Nat.ne_of_lt (Nat.lt_succ_of_lt (Nat.lt_succ_of_lt (hwp q hq)))
  unfold create_shader_program
  rw [create_shader_eq d v GL_VERTEX_SHADER s hws hnv, if_neg (by simp [hcv])]
  dsimp only
  rw [create_shader_eq d f GL_FRAGMENT_SHADER _ (wf_shaders_step s hws GL_VERTEX_SHADER v) hnf,
      if_neg (by simp [hcf])]
  dsimp only [glCreateProgram, glAttachShader, glLinkProgram, glGetProgramLinkStatus,
    glGetProgramInfoLog, glDeleteShader]
  rw [map_update_fresh_program (fun q => { q with attached := q.attached ++ [s.nextId] })
        ⟨s.nextId + 1 + 1, []⟩ hpne rfl]
  dsimp only
  simp only [List.nil_append]
  rw [map_update_fresh_program (fun q => { q with attached := q.attached ++ [s.nextId + 1] })
        ⟨s.nextId + 1 + 1, [s.nextId]⟩ hpne rfl]
  dsimp only
  simp only [List.cons_append, List.nil_append]
  rw [show attachedSources
        { nextId := s.nextId + 1 + 1 + 1,
          shaders := s.shaders ++ [⟨s.nextId, GL_VERTEX_SHADER, v⟩] ++
            [⟨s.nextId + 1, GL_FRAGMENT_SHADER, f⟩],
          programs := s.programs ++ [⟨s.nextId + 1 + 1, [s.nextId, s.nextId + 1]⟩],
          currentProgram := s.currentProgram } (s.nextId + 1 + 1) = [v, f] from ?_]
  rotate_left
  · unfold attachedSources
    rw [find_fresh_program ⟨s.nextId + 1 + 1, [s.nextId, s.nextId + 1]⟩ hpne rfl]
    dsimp only
    have hfv : List.find? (fun o => o.id == s.nextId)
        (s.shaders ++ [(⟨s.nextId, GL_VERTEX_SHADER, v⟩ : ShaderObj)] ++
          [(⟨s.nextId + 1, GL_FRAGMENT_SHADER, f⟩ : ShaderObj)])
        = some ⟨s.nextId, GL_VERTEX_SHADER, v⟩ := by
      rw [List.find?_append, List.find?_append, find_shaders_none hne]
      simp [List.find?]
    have hff : List.find? (fun o => o.id == s.nextId + 1)
        (s.shaders ++ [(⟨s.nextId, GL_VERTEX_SHADER, v⟩ : ShaderObj)] ++
          [(⟨s.nextId + 1, GL_FRAGMENT_SHADER, f⟩ : ShaderObj)])
        = some ⟨s.nextId + 1, GL_FRAGMENT_SHADER, f⟩ := by
      have hb : (s.nextId == s.nextId + 1) = false :=
        beq_eq_false_iff_ne.mpr (Nat.ne_of_lt (Nat.lt_succ_self _))
      rw [List.find?_append, List.find?_append, find_shaders_none hne1]
      simp [List.find?, hb]
    simp only [List.filterMap_cons, List.filterMap_nil, hfv, hff]
    rfl
  have hkeep : s.shaders.filter (fun o => o.id != s.nextId) = s.shaders :=
    List.filter_eq_self.mpr fun o ho => by simp [hne o ho]
  have hkeep1 : s.shaders.filter (fun o => o.id != s.nextId + 1) = s.shaders :=
    List.filter_eq_self.mpr fun o ho => by simp [hne1 o ho]
  split
  · simp [List.append_assoc]
  · simp [List.filter_append, hkeep, hkeep1, Nat.succ_ne_self, List.append_assoc]

/-- `read_from_file` never returns an `Err` value: it either returns the
contents or panics. -/
lemma read_from_file_ne_err (fs : FileSystem) (fn : String) (e : String) :
    read_from_file fs fn ≠ Outcome.err e := by
  unfold read_from_file
  split <;> simp

/-- Inverting a successful `create_shader` call: the returned handle is
the pre-state's fresh id and the call allocates exactly one id. -/
lemma create_shader_ok_inv {d : Driver} {src : String} {ty : Nat} {s : GLState}
    {h : Nat} {s1 : GLState}
    (he : create_shader d src ty s = (Outcome.ok h, s1)) :
    h = s.nextId ∧ s1.nextId = s.nextId + 1 ∧ s1.programs = s.programs ∧
      s1.currentProgram = s.currentProgram := by
  unfold create_shader glCreateShader cStringNew glShaderSource glCompileShader
    glGetShaderCompileStatus glGetShaderInfoLog at he
  dsimp only at he
  split at he
  · simp at he
  · simp at he
  · split at he
    · simp at he
    · simp only [Prod.mk.injEq, Outcome.ok.injEq] at he
      obtain ⟨h1, h2⟩ := he
      subst h2
      exact ⟨h1.symm, rfl, rfl, rfl⟩

/-- Inverting a successful `create_shader_program` call: the returned
program handle is the third id allocated during the call. -/
lemma create_shader_program_ok_inv {d : Driver} {v f : String} {s : GLState}
    {h : Nat} {s1 : GLState}
    (he : create_shader_program d v f s = (Outcome.ok h, s1)) :
    h = s.nextId + 2 := by
  unfold create_shader_program at he
  split at he
  · simp at he
  · simp at he
  · rename_i rv sv hv
    split at he
    · simp at he
    · simp at he
    · rename_i rf sf hf
      obtain ⟨hv1, hsv, -, -⟩ := create_shader_ok_inv hv
      obtain ⟨hf1, hsf, -, -⟩ := create_shader_ok_inv hf
      dsimp only [glCreateProgram, glAttachShader, glLinkProgram,
        glGetProgramLinkStatus, glGetProgramInfoLog, glDeleteShader] at he
      split at he
      · simp at he
      · simp only [Prod.mk.injEq, Outcome.ok.injEq] at he
        obtain ⟨h1, -⟩ := he
        omega

/-- Complete case analysis of `ShaderProgram.reload`: a read panic leaves
the object and GL state untouched; a build `Err` is converted into a
panic carrying the expect message and the error, leaving the object
untouched; a build panic propagates; only a successful build stores the
new handle. -/
lemma reload_inv (d : Driver) (fs : FileSystem) (p : ShaderProgram) (s : GLState) :
    (∃ m, ShaderProgram.reload d fs p s = (Outcome.panicked m, p, s) ∧
      (read_from_file fs p.vertex_filename = Outcome.panicked m ∨
        ∃ v, read_from_file fs p.vertex_filename = Outcome.ok v ∧
          read_from_file fs p.fragment_filename = Outcome.panicked m)) ∨
    (∃ v f e s1, read_from_file fs p.vertex_filename = Outcome.ok v ∧
      read_from_file fs p.fragment_filename = Outcome.ok f ∧
      create_shader_program d v f s = (Outcome.err e, s1) ∧
      ShaderProgram.reload d fs p s
        = (Outcome.panicked ("Could not create shader program: " ++ e), p, s1)) ∨
    (∃ v f m s1, read_from_file fs p.vertex_filename = Outcome.ok v ∧
      read_from_file fs p.fragment_filename = Outcome.ok f ∧
      create_shader_program d v f s = (Outcome.panicked m, s1) ∧
      ShaderProgram.reload d fs p s = (Outcome.panicked m, p, s1)) ∨
    (∃ v f id s1, read_from_file fs p.vertex_filename = Outcome.ok v ∧
      read_from_file fs p.fragment_filename = Outcome.ok f ∧
      create_shader_program d v f s = (Outcome.ok id, s1) ∧
      ShaderProgram.reload d fs p s = (Outcome.ok (), { p with id := id }, s1)) := by
  rcases hrv : read_from_file fs p.vertex_filename with v | e | m
  · rcases hrf : read_from_file fs p.fragment_filename with f | e | m
    · rcases hc : create_shader_program d v f s with ⟨r, s1⟩
      cases r with
      | ok id =>
        refine Or.inr (Or.inr (Or.inr ⟨v, f, id, s1, rfl, rfl, hc, ?_⟩))
        unfold ShaderProgram.reload
        simp only [hrv, hrf, hc]
      | err e =>
        refine Or.inr (Or.inl ⟨v, f, e, s1, rfl, rfl, hc, ?_⟩)
        unfold ShaderProgram.reload
        simp only [hrv, hrf, hc]
      | panicked m =>
        refine Or.inr (Or.inr (Or.inl ⟨v, f, m, s1, rfl, rfl, hc, ?_⟩))
        unfold ShaderProgram.reload
        simp only [hrv, hrf, hc]
    · exact absurd hrf (read_from_file_ne_err fs p.fragment_filename e)
    · refine Or.inl ⟨m, ?_, Or.inr ⟨v, rfl, rfl⟩⟩
      unfold ShaderProgram.reload
      simp only [hrv, hrf]
  · exact absurd hrv (read_from_file_ne_err fs p.vertex_filename e)
  · refine Or.inl ⟨m, ?_, Or.inl rfl⟩
    unfold ShaderProgram.reload
    simp only [hrv]

/-- Inverting a successful `ShaderProgram.new`: both reads succeeded, the
build succeeded, and the object records the built handle and the two
paths. -/
lemma new_ok_inv {d : Driver} {fs : FileSystem} {vfn ffn : String} {s : GLState}
    {prog : ShaderProgram} {s1 : GLState}
    (he : ShaderProgram.new d fs vfn ffn s = (Outcome.ok prog, s1)) :
    ∃ v f, read_from_file fs vfn = Outcome.ok v ∧
      read_from_file fs ffn = Outcome.ok f ∧
      create_shader_program d v f s = (Outcome.ok prog.id, s1) ∧
      prog.vertex_filename = vfn ∧ prog.fragment_filename = ffn := by
  unfold ShaderProgram.new at he
  split at he
  · simp at he
  · simp at he
  · rename_i v hv
    split at he
    · simp at he
    · simp at he
    · rename_i f hf
      split at he
      · simp at he
      · simp at he
      · rename_i id s2 hc
        simp only [Prod.mk.injEq, Outcome.ok.injEq] at he
        obtain ⟨h1, h2⟩ := he
        subst h2
        subst h1
        exact ⟨v, f, hv, hf, hc, rfl, rfl⟩

/-- C1: the stored handle always refers to the most recently successfully
linked GPU program.  A successful `ShaderProgram.new` stores exactly the
handle returned by its successful `create_shader_program` call (a failed
construction returns `err`/`panicked` and produces no object, by the
result type); `ShaderProgram.reload` leaves the stored handle unchanged
whenever it does not complete successfully, and on success the stored
handle is the one returned by the successful `create_shader_program`
call on the re-read sources. -/
theorem C1_handle_tracks_successful_build (d : Driver) (fs : FileSystem)
    (vfn ffn : String) (p : ShaderProgram) (s : GLState) :
    (∀ prog s1, ShaderProgram.new d fs vfn ffn s = (Outcome.ok prog, s1) →
      ∃ v f, read_from_file fs vfn = Outcome.ok v ∧
        read_from_file fs ffn = Outcome.ok f ∧
        create_shader_program d v f s = (Outcome.ok prog.id, s1)) ∧
    ((ShaderProgram.reload d fs p s).1 ≠ Outcome.ok () →
      ((ShaderProgram.reload d fs p s).2.1).id = p.id) ∧
    ((ShaderProgram.reload d fs p s).1 = Outcome.ok () →
      ∃ v f, read_from_file fs p.vertex_filename = Outcome.ok v ∧
        read_from_file fs p.fragment_filename = Outcome.ok f ∧
        create_shader_program d v f s
          = (Outcome.ok ((ShaderProgram.reload d fs p s).2.1).id,
             (ShaderProgram.reload d fs p s).2.2)) := by
  refine ⟨?_, ?_, ?_⟩
  · intro prog s1 he
    obtain ⟨v, f, hv, hf, hc, -, -⟩ := new_ok_inv he
    exact ⟨v, f, hv, hf, hc⟩
  · intro hne
    rcases reload_inv d fs p s with ⟨m, hr, -⟩ | ⟨v, f, e, s1, -, -, -, hr⟩ |
      ⟨v, f, m, s1, -, -, -, hr⟩ | ⟨v, f, id, s1, -, -, -, hr⟩
    · rw [hr]
    · rw [hr]
    · rw [hr]
    · rw [hr] at hne
      simp at hne
  · intro hok
    rcases reload_inv d fs p s with ⟨m, hr, -⟩ | ⟨v, f, e, s1, -, -, -, hr⟩ |
      ⟨v, f, m, s1, -, -, -, hr⟩ | ⟨v, f, id, s1, hv, hf, hc, hr⟩
    · rw [hr] at hok
      simp at hok
    · rw [hr] at hok
      simp at hok
    · rw [hr] at hok
      simp at hok
    · rw [hr]
      exact ⟨v, f, hv, hf, hc⟩

/-- Witness for C1 at a concrete failing reload: the rebuild fails (the
demo fragment source does not compile under `driverFragFail`), so the
stored handle is unchanged. -/
theorem C1_witness :
    ((ShaderProgram.reload driverFragFail fsDemo progDemo stateDemo).2.1).id
      = progDemo.id :=
  (C1_handle_tracks_successful_build driverFragFail fsDemo "shader.vert" "shader.frag"
    progDemo stateDemo).2.1 (by decide)

/-- C2: refuted by the code — `create_shader` hardcodes the `VERTEX` tag
in its error message for both stages, so a fragment-stage compile
failure (vertex stage compiling fine) is reported with the `VERTEX` tag,
not `FRAGMENT`.  This evaluates the build at such a failing input. -/
theorem C2_fragment_failure_tagged_vertex :
    driverFragFail.compileStatus "vertex-source" = glTRUE ∧
    driverFragFail.compileStatus "bad-fragment-source" ≠ glTRUE ∧
    (create_shader_program driverFragFail "vertex-source" "bad-fragment-source" glInit).1
      = Outcome.err ("ERROR::SHADER::VERTEX::COMPILATION_FAILED\n"
          ++ "fragment-stage-diagnostic") :=
  ⟨by decide, by decide, by decide⟩

/-- C3 counterexample: at a concrete state (the one produced by
construction, program handle 3), a successful source `reload` stores a
handle different from the previous one and a brand-new program object
appears (program ids [3, 6] afterwards) — the rebuild goes through
`create_shader_program`, not through `update_shader_program`.  The
spec-modelled rebuild-into-existing-program reload (`reloadViaUpdate`)
would instead keep handle 3 and create no new program object. -/
theorem C3_counterexample_fresh_program :
    ((ShaderProgram.reload driverAllOk fsDemo progDemo stateDemo).2.1).id ≠ progDemo.id ∧
    (ShaderProgram.reload driverAllOk fsDemo progDemo stateDemo).2.2.programs.map
        ProgramObj.id = [3, 6] ∧
    ((reloadViaUpdate driverAllOk fsDemo progDemo stateDemo).2.1).id = progDemo.id ∧
    (reloadViaUpdate driverAllOk fsDemo progDemo stateDemo).2.2.programs.map
        ProgramObj.id = [3] := by
  decide

/-- C3 (amended): `reload` rebuilds via the Build-new-program entry point
`create_shader_program`: on a successful reload the stored handle is the
third id freshly allocated during the rebuild (vertex stage, fragment
stage, then a new program object), so it is distinct from every program
handle that existed before, and it is exactly the handle returned by the
successful `create_shader_program` call on the re-read sources. -/
theorem C3_reload_builds_fresh_program (d : Driver) (fs : FileSystem)
    (p : ShaderProgram) (s : GLState) (hwf : s.wf)
    (hok : (ShaderProgram.reload d fs p s).1 = Outcome.ok ()) :
    ((ShaderProgram.reload d fs p s).2.1).id = s.nextId + 2 ∧
    (∀ q ∈ s.programs, q.id ≠ ((ShaderProgram.reload d fs p s).2.1).id) ∧
    ∃ v f, read_from_file fs p.vertex_filename = Outcome.ok v ∧
      read_from_file fs p.fragment_filename = Outcome.ok f ∧
      create_shader_program d v f s
        = (Outcome.ok ((ShaderProgram.reload d fs p s).2.1).id,
           (ShaderProgram.reload d fs p s).2.2) := by
  rcases reload_inv d fs p s with ⟨m, hr, -⟩ | ⟨v, f, e, s1, -, -, -, hr⟩ |
    ⟨v, f, m, s1, -, -, -, hr⟩ | ⟨v, f, id, s1, hv, hf, hc, hr⟩
  · rw [hr] at hok
    simp at hok
  · rw [hr] at hok
    simp at hok
  · rw [hr] at hok
    simp at hok
  · rw [hr]
    have hid : id = s.nextId + 2 := create_shader_program_ok_inv hc
    refine ⟨hid, fun q hq => ?_, v, f, hv, hf, hc⟩
    have := hwf.2 q hq
    dsimp only
    omega

/-- Witness for C3's amended theorem at the concrete demo reload. -/
theorem C3_witness :
    ((ShaderProgram.reload driverAllOk fsDemo progDemo stateDemo).2.1).id
      = stateDemo.nextId + 2 :=
  (C3_reload_builds_fresh_program driverAllOk fsDemo progDemo stateDemo
    (by decide) (by decide)).1

/-- C4: `reload` never returns a build error value: its result is never
`err`, and whenever the internal rebuild returns a build `Err`, reload
ends in a process-terminating panic whose message is the expect message
followed by the build error's message. -/
theorem C4_reload_fails_fatally (d : Driver) (fs : FileSystem)
    (p : ShaderProgram) (s : GLState) :
    (∀ e, (ShaderProgram.reload d fs p s).1 ≠ Outcome.err e) ∧
    (∀ v f e s1,
      read_from_file fs p.vertex_filename = Outcome.ok v →
      read_from_file fs p.fragment_filename = Outcome.ok f →
      create_shader_program d v f s = (Outcome.err e, s1) →
      (ShaderProgram.reload d fs p s).1
        = Outcome.panicked ("Could not create shader program: " ++ e)) := by
  constructor
  · intro e
    rcases reload_inv d fs p s with ⟨m, hr, -⟩ | ⟨v, f, e1, s1, -, -, -, hr⟩ |
      ⟨v, f, m, s1, -, -, -, hr⟩ | ⟨v, f, id, s1, -, -, -, hr⟩ <;>
      rw [hr] <;> simp
  · intro v f e s1 hv hf hc
    rcases reload_inv d fs p s with ⟨m, hr, hcase⟩ | ⟨v1, f1, e1, s2, hv1, hf1, hc1, hr⟩ |
      ⟨v1, f1, m, s2, hv1, hf1, hc1, hr⟩ | ⟨v1, f1, id, s2, hv1, hf1, hc1, hr⟩
    · rcases hcase with h | ⟨v2, hv2, hf2⟩
      · rw [hv] at h
        simp at h
      · rw [hf] at hf2
        simp at hf2
    · rw [hv] at hv1
      injection hv1 with h1
      subst h1
      rw [hf] at hf1
      injection hf1 with h2
      subst h2
      rw [hc] at hc1
      simp only [Prod.mk.injEq, Outcome.err.injEq] at hc1
      obtain ⟨he, -⟩ := hc1
      subst he
      rw [hr]
    · rw [hv] at hv1
      injection hv1 with h1
      subst h1
      rw [hf] at hf1
      injection hf1 with h2
      subst h2
      rw [hc] at hc1
      simp at hc1
    · rw [hv] at hv1
      injection hv1 with h1
      subst h1
      rw [hf] at hf1
      injection hf1 with h2
      subst h2
      rw [hc] at hc1
      simp at hc1

/-- Witness for C4 at the concrete failing reload: the fragment stage of
the demo sources fails to compile under `driverFragFail`, and reload
panics with the expect message followed by the build error. -/
theorem C4_witness :
    (ShaderProgram.reload driverFragFail fsDemo progDemo stateDemo).1
      = Outcome.panicked ("Could not create shader program: "
          ++ ("ERROR::SHADER::VERTEX::COMPILATION_FAILED\n"
              ++ "fragment-stage-diagnostic")) :=
  (C4_reload_fails_fatally driverFragFail fsDemo progDemo stateDemo).2
    "vertex-source" "fragment-source"
    ("ERROR::SHADER::VERTEX::COMPILATION_FAILED\n" ++ "fragment-stage-diagnostic")
    { nextId := 6,
      shaders := [⟨4, GL_VERTEX_SHADER, "vertex-source"⟩,
                  ⟨5, GL_FRAGMENT_SHADER, "fragment-source"⟩],
      programs := [⟨3, [1, 2]⟩], currentProgram := 0 }
    (by decide) (by decide) (by decide)

/-- C5: `create_shader_program` checks the stages in the fixed order
vertex-compile, fragment-compile, link, and returns the first error
encountered.  A vertex compile error is returned with the fragment stage
never compiled (the final state extends the input state by exactly the
one vertex shader object); a fragment compile error is returned with
linking never attempted (no program object is allocated: the `programs`
field is unchanged); on full success the new program handle is returned
and it is fresh (distinct from every pre-existing program id). -/
theorem C5_build_order_and_first_error (d : Driver) (v f : String) (s : GLState)
    (hwf : s.wf)
    (hnv : v.data.contains (Char.ofNat 0) = false)
    (hnf : f.data.contains (Char.ofNat 0) = false) :
    (d.compileStatus v ≠ glTRUE →
      create_shader_program d v f s =
        (Outcome.err ("ERROR::SHADER::VERTEX::COMPILATION_FAILED\n" ++ d.compileLog v),
         { s with nextId := s.nextId + 1,
                  shaders := s.shaders ++ [⟨s.nextId, GL_VERTEX_SHADER, v⟩] })) ∧
    (d.compileStatus v = glTRUE → d.compileStatus f ≠ glTRUE →
      create_shader_program d v f s =
        (Outcome.err ("ERROR::SHADER::VERTEX::COMPILATION_FAILED\n" ++ d.compileLog f),
         { s with nextId := s.nextId + 2,
                  shaders := s.shaders ++ [⟨s.nextId, GL_VERTEX_SHADER, v⟩,
                                           ⟨s.nextId + 1, GL_FRAGMENT_SHADER, f⟩] })) ∧
    (d.compileStatus v = glTRUE → d.compileStatus f = glTRUE →
        d.linkStatus [v, f] = glTRUE →
      (create_shader_program d v f s).1 = Outcome.ok (s.nextId + 2) ∧
      ∀ q ∈ s.programs, q.id ≠ s.nextId + 2) := by
  refine ⟨?_, ?_, ?_⟩
  · intro hcv
    exact create_shader_program_vertex_fail d v f s hwf hnv hcv
  · intro hcv hcf
    exact create_shader_program_fragment_fail d v f s hwf hnv hnf hcv hcf
  · intro hcv hcf hlink
    rw [create_shader_program_link_stage d v f s hwf hnv hnf hcv hcf,
        if_neg (fun h => h hlink)]
    refine ⟨rfl, fun q hq => ?_⟩
    have := hwf.2 q hq
    omega

/-- Witness for C5 at a concrete input where only the fragment stage
fails: the fragment error is returned and no program object exists. -/
theorem C5_witness :
    create_shader_program driverFragFail "vertex-source" "bad-fragment-source" glInit
      = (Outcome.err ("ERROR::SHADER::VERTEX::COMPILATION_FAILED\n"
            ++ "fragment-stage-diagnostic"),
         { nextId := 3,
           shaders := [⟨1, GL_VERTEX_SHADER, "vertex-source"⟩,
                       ⟨2, GL_FRAGMENT_SHADER, "bad-fragment-source"⟩],
           programs := [], currentProgram := 0 }) :=
  (C5_build_order_and_first_error driverFragFail "vertex-source" "bad-fragment-source"
    glInit (by decide) (by decide) (by decide)).2.1 (by decide) (by decide)

/-- C6: once both stages compiled, if the link-status flag is anything
other than the TRUE sentinel, an error tagged `PROGRAM` carrying the
driver's diagnostic text is returned and both compiled shader stages are
still present in the final state (neither was deleted); when linking
succeeds, both stages are deleted (the final `shaders` list is exactly
the pre-existing one) before the program handle is returned. -/
theorem C6_link_stage_effects (d : Driver) (v f : String) (s : GLState)
    (hwf : s.wf)
    (hnv : v.data.contains (Char.ofNat 0) = false)
    (hnf : f.data.contains (Char.ofNat 0) = false)
    (hcv : d.compileStatus v = glTRUE)
    (hcf : d.compileStatus f = glTRUE) :
    (d.linkStatus [v, f] ≠ glTRUE →
      create_shader_program d v f s =
        (Outcome.err ("ERROR::SHADER::PROGRAM::COMPILATION_FAILED\n" ++ d.linkLog [v, f]),
         { nextId := s.nextId + 3,
           shaders := s.shaders ++ [⟨s.nextId, GL_VERTEX_SHADER, v⟩,
                                    ⟨s.nextId + 1, GL_FRAGMENT_SHADER, f⟩],
           programs := s.programs ++ [⟨s.nextId + 2, [s.nextId, s.nextId + 1]⟩],
           currentProgram := s.currentProgram })) ∧
    (d.linkStatus [v, f] = glTRUE →
      create_shader_program d v f s =
        (Outcome.ok (s.nextId + 2),
         { nextId := s.nextId + 3,
           shaders := s.shaders,
           programs := s.programs ++ [⟨s.nextId + 2, [s.nextId, s.nextId + 1]⟩],
           currentProgram := s.currentProgram })) := by
  constructor
  · intro hl
    rw [create_shader_program_link_stage d v f s hwf hnv hnf hcv hcf, if_pos hl]
  · intro hl
    rw [create_shader_program_link_stage d v f s hwf hnv hnf hcv hcf,
        if_neg (fun h => h hl)]

/-- Witness for C6 at a concrete link failure: the `PROGRAM`-tagged error
is returned and both shader stage objects are still allocated. -/
theorem C6_witness :
    create_shader_program driverLinkFail "vertex-source" "fragment-source" glInit
      = (Outcome.err ("ERROR::SHADER::PROGRAM::COMPILATION_FAILED\n"
            ++ "link-diagnostic"),
         { nextId := 4,
           shaders := [⟨1, GL_VERTEX_SHADER, "vertex-source"⟩,
                       ⟨2, GL_FRAGMENT_SHADER, "fragment-source"⟩],
           programs := [⟨3, [1, 2]⟩], currentProgram := 0 }) :=
  (C6_link_stage_effects driverLinkFail "vertex-source" "fragment-source" glInit
    (by decide) (by decide) (by decide) (by decide) (by decide)).1 (by decide)

/-- C7: the source loader either returns the file's full contents or
panics (process termination); it never returns an `err` value to its
caller, and whenever the filesystem cannot produce contents it panics. -/
theorem C7_read_from_file_contract (fs : FileSystem) (fn : String) :
    (∀ c, fs.files fn = FileResult.contents c → read_from_file fs fn = Outcome.ok c) ∧
    (∀ e, read_from_file fs fn ≠ Outcome.err e) ∧
    ((∀ c, fs.files fn ≠ FileResult.contents c) →
      ∃ m, read_from_file fs fn = Outcome.panicked m) := by
  refine ⟨?_, read_from_file_ne_err fs fn, ?_⟩
  · intro c hc
    unfold read_from_file
    rw [hc]
  · intro hnc
    unfold read_from_file
    cases hf : fs.files fn with
    | contents c => exact absurd hf (hnc c)
    | openError => exact ⟨"Could not open file", rfl⟩
    | readError => exact ⟨"Could not read file", rfl⟩

/-- Witness for C7 at the demo filesystem: an existing file is returned
in full, and a missing file panics. -/
theorem C7_witness :
    read_from_file fsDemo "shader.vert" = Outcome.ok "vertex-source" ∧
    ∃ m, read_from_file fsDemo "missing.file" = Outcome.panicked m :=
  ⟨(C7_read_from_file_contract fsDemo "shader.vert").1 "vertex-source" (by decide),
   (C7_read_from_file_contract fsDemo "missing.file").2.2 (by
      intro c h
      rw [show fsDemo.files "missing.file" = FileResult.openError from by decide] at h
      exact FileResult.noConfusion h)⟩

/-- C8: the two source-path fields never change after construction.
`activate` and `deactivate` take the object by shared reference and
write no field, so the object is unchanged; `reload` writes only the
`id` cell, so the post-state of the object agrees with the pre-state on
both path fields in every case (success, build failure, read failure). -/
theorem C8_source_paths_immutable (d : Driver) (fs : FileSystem)
    (p : ShaderProgram) (s : GLState) :
    (ShaderProgram.activate p s).1 = p ∧
    (ShaderProgram.deactivate p s).1 = p ∧
    ((ShaderProgram.reload d fs p s).2.1).vertex_filename = p.vertex_filename ∧
    ((ShaderProgram.reload d fs p s).2.1).fragment_filename = p.fragment_filename := by
  refine ⟨rfl, rfl, ?_, ?_⟩ <;>
  · rcases reload_inv d fs p s with ⟨m, hr, -⟩ | ⟨v, f, e, s1, -, -, -, hr⟩ |
      ⟨v, f, m, s1, -, -, -, hr⟩ | ⟨v, f, id, s1, -, -, -, hr⟩ <;> rw [hr]

/-- C9: `activate` and `deactivate` are idempotent — running either
twice in a row (with the same object, whose handle is unchanged in
between) yields exactly the same object and driver state as running it
once; both are total functions of the state (no error outcome exists in
their types). -/
theorem C9_activate_deactivate_idempotent (p : ShaderProgram) (s : GLState) :
    ShaderProgram.activate p (ShaderProgram.activate p s).2
      = ShaderProgram.activate p s ∧
    ShaderProgram.deactivate p (ShaderProgram.deactivate p s).2
      = ShaderProgram.deactivate p s :=
  ⟨rfl, rfl⟩

/-- C10: on a link failure the freshly created program object itself is
also left allocated — it is a member of the final state's program list
(no delete-program call exists anywhere in the code), alongside the two
undeleted shader stage objects. -/
theorem C10_link_failure_leaks_program (d : Driver) (v f : String) (s : GLState)
    (hwf : s.wf)
    (hnv : v.data.contains (Char.ofNat 0) = false)
    (hnf : f.data.contains (Char.ofNat 0) = false)
    (hcv : d.compileStatus v = glTRUE)
    (hcf : d.compileStatus f = glTRUE)
    (hl : d.linkStatus [v, f] ≠ glTRUE) :
    (⟨s.nextId + 2, [s.nextId, s.nextId + 1]⟩ : ProgramObj)
        ∈ (create_shader_program d v f s).2.programs ∧
    (⟨s.nextId, GL_VERTEX_SHADER, v⟩ : ShaderObj)
        ∈ (create_shader_program d v f s).2.shaders ∧
    (⟨s.nextId + 1, GL_FRAGMENT_SHADER, f⟩ : ShaderObj)
        ∈ (create_shader_program d v f s).2.shaders := by
  rw [create_shader_program_link_stage d v f s hwf hnv hnf hcv hcf, if_pos hl]
  refine ⟨?_, ?_, ?_⟩ <;> simp

/-- Witness for C10 at the concrete link-failing build: the new program
object with handle 3 stays allocated. -/
theorem C10_witness :
    (⟨3, [1, 2]⟩ : ProgramObj)
      ∈ (create_shader_program driverLinkFail "vertex-source" "fragment-source"
          glInit).2.programs :=
  (C10_link_failure_leaks_program driverLinkFail "vertex-source" "fragment-source"
    glInit (by decide) (by decide) (by decide) (by decide) (by decide) (by decide)).1
